import Mathlib

/-!
Shallow embedding of `src/olympia/files/views.py` (the add-on file-viewer
views) and proofs about its behaviour: permission classes on the REST
viewset, decorator composition, token-gated serving, polling results,
404 conditions, redirect-URL construction and template-context assembly.

External collaborators (the `FileViewer` and diff objects, the compare
form, the `acl` helpers, the message/token cache) are modelled as oracle
fields on the corresponding structures; everything the view file itself
computes is transcribed from the source.
-/

set_option autoImplicit false

namespace Olympia

/-- An add-on, reached from a file as `file_obj.version.addon`; the views use
its `slug` and `pk`. -/
structure Addon where
  slug : String
  pk : Nat
deriving DecidableEq

/-- A version, reached as `file_obj.version`. -/
structure Version where
  addon : Addon
deriving DecidableEq

/-- The slice of the `File` model object the views read: `id`,
`automated_signing`, `has_been_validated` and
`validation.processed_validation` (flattened to one field). -/
structure FileObj where
  id : Nat
  version : Version
  automated_signing : Bool
  has_been_validated : Bool
  processed_validation : String
deriving DecidableEq

/-- One entry of the dict returned by `FileViewer.get_files()`: the views read
its `full` path and `mimetype`.  Entries are records, so an entry present in
the files dict is never falsy. -/
structure FileInfo where
  full : String
  mimetype : String
deriving DecidableEq

/-- The slice of the Django request the views consult, together with the
verdicts of the external `olympia.access.acl` helpers on it:
`is_reviewer` is `acl.is_reviewer(request, addon)` and
`check_addon_ownership_dev` is
`acl.check_addon_ownership(request, addon, dev=True, ignore_disabled=True)`,
both for the add-on the request is about. -/
structure Request where
  method : String
  path : String
  is_reviewer : Bool
  check_addon_ownership_dev : Bool
deriving DecidableEq

/-- Template-context values stored in the data dicts the views assemble. -/
inductive Value where
  | vBool (b : Bool)
  | vStr (s : String)
  | vFileObj (f : FileObj)
  | vVersion (v : Version)
  | vAddon (a : Addon)
  | vEmptyDict
  | vLink (text url : String)
  | vFiles (fs : List (String × FileInfo))
  | vViewerObj
  | vDiffObj
  | vFormObj
deriving DecidableEq

/-- A Python dict, as an association list in which the most recent binding of
a key wins. -/
abbrev Dict := List (String × Value)

/-- Assignment `d[k] = v`. -/
def Dict.set (d : Dict) (k : String) (v : Value) : Dict := (k, v) :: d

/-- Lookup `d.get(k)`. -/
def Dict.get (d : Dict) (k : String) : Option Value := List.lookup k d

/-- Modelled from the spec: URL construction.  `reverse` (re-exported by
`olympia.amo.urlresolvers` from Django) maps a view name and arguments to
that view's URL path; the URL configuration is outside the reviewed source,
so the path is modelled as `/viewname/arg1/arg2/...`. -/
def reverse (viewname : String) (args : List String) : String :=
  "/" ++ viewname ++ "/" ++ String.intercalate "/" args

/-- `django.utils.translation.ugettext`, modelled as the identity on the
source string. -/
def ugettext (s : String) : String := s

/-- `olympia.amo.utils.urlparams(url, token=t)`: append the query string. -/
def urlparams (url : String) (token : String) : String :=
  url ++ "?token=" ++ token

/-- The dict literal at the top of `setup_viewer` (views.py lines 32-39). -/
def setup_viewer_base (file_obj : FileObj) : Dict :=
  [("file", Value.vFileObj file_obj),
   ("version", Value.vVersion file_obj.version),
   ("addon", Value.vAddon file_obj.version.addon),
   ("status", Value.vBool false),
   ("selected", Value.vEmptyDict),
   ("validate_url", Value.vStr "")]

/-- `setup_viewer(request, file_obj)` (views.py lines 30-62). -/
def setup_viewer (request : Request) (file_obj : FileObj) : Dict :=
  let addon := file_obj.version.addon
  let data := setup_viewer_base file_obj
  let is_user_a_reviewer := request.is_reviewer
  let data :=
    if is_user_a_reviewer || request.check_addon_ownership_dev then
      let data := data.set "validate_url"
        (Value.vStr (reverse "devhub.json_file_validation"
          [addon.slug, toString file_obj.id]))
      let data := data.set "automated_signing"
        (Value.vBool file_obj.automated_signing)
      if file_obj.has_been_validated then
        data.set "validation_data" (Value.vStr file_obj.processed_validation)
      else data
    else data
  if is_user_a_reviewer then
    data.set "file_link"
      (Value.vLink (ugettext "Back to review")
        (reverse "reviewers.review" [addon.slug]))
  else
    data.set "file_link"
      (Value.vLink (ugettext "Back to add-on")
        (reverse "addons.detail" [toString addon.pk]))

/-- The external `FileViewer` object.  `name` is `str(viewer)` (used in
message keys and URL arguments); the extraction status, the file tree and the
selection-dependent observations are oracles supplied by the collaborator
module.  `select(key)` is a state change on the viewer, so its observable
effects (`is_directory()`, `is_binary()`, `read_file()`) are modelled as
functions of the key that was passed to `select`. -/
structure Viewer where
  name : String
  file : FileObj
  addon : Addon
  is_extracted : Bool
  get_files : List (String × FileInfo)
  get_selected_file : Option String → String
  is_directory : Option String → Bool
  is_binary : Option String → Bool
  read_file : Option String → String

/-- The external diff object pairing two file viewers.  `is_diffable()` and
`read_file()` observe the state after `select(key)` with the resolved key, so
they are modelled as functions of that key. -/
structure DiffObj where
  left : Viewer
  right : Viewer
  addon : Addon
  is_extracted : Bool
  get_files : List (String × FileInfo)
  get_deleted_files : List (String × FileInfo)
  is_diffable : String → Bool
  read_file : String → String × String

/-- The pending-message store behind `olympia.lib.cache.Message`, keyed by the
message id string; an absent key means no message is pending.  Message
payloads are the strings the extraction tasks save. -/
abbrev MsgStore := List (String × String)

/-- Lookup of the pending message for a key. -/
def MsgStore.get (s : MsgStore) (k : String) : Option String := List.lookup k s

/-- Removal of every entry for a key. -/
def MsgStore.delete (s : MsgStore) (k : String) : MsgStore :=
  s.filter (fun p => !(p.1 == k))

/-- `Message(k).get(delete=True)`: return the pending message (`None` when
there is none) and delete it from the store. -/
def Message.get_delete (s : MsgStore) (k : String) : Option String × MsgStore :=
  (s.get k, s.delete k)

/-- The message key `'file-viewer:%s' % viewer` with `viewer` stringified. -/
def viewerMsgKey (v : Viewer) : String := "file-viewer:" ++ v.name

/-- Python truthiness of an optional string: `None` and `''` are falsy. -/
def pyTruthy : Option String → Bool
  | none => false
  | some s => s != ""

/-- The JSON body returned by `poll`. -/
structure PollResult where
  status : Bool
  msg : List (Option String)
deriving DecidableEq

/-- `poll(request, viewer)` (views.py lines 65-71), with the message store
threaded explicitly; returns the JSON body and the store after the
`delete=True` retrieval. -/
def poll (store : MsgStore) (viewer : Viewer) : PollResult × MsgStore :=
  let r := Message.get_delete store (viewerMsgKey viewer)
  (⟨viewer.is_extracted, [r.1]⟩, r.2)

/-- The externally-constructed `forms.FileCompareForm`: its validity verdict
and its cleaned data, `cleaned_data['left']` and `cleaned_data.get('right')`
(`none` when the field is absent). -/
structure FileCompareForm where
  is_valid : Bool
  left : String
  right : Option String
deriving DecidableEq

/-- `check_compare_form(request, form)` (views.py lines 74-85): returns the
redirect URL, or `none` for the implicit Python `None` on non-POST
requests. -/
def check_compare_form (request : Request) (form : FileCompareForm) :
    Option String :=
  if request.method = "POST" then
    some
      (if form.is_valid then
        if pyTruthy form.right then
          reverse "files.compare" [form.left, form.right.getD ""]
        else
          reverse "files.list" [form.left]
      else request.path)
  else none

/-- The responses the view functions can produce: a redirect, an `Http404`,
a rendered template, or an `HttpResponseSendFile`. -/
inductive Response where
  | redirect (url : String)
  | notFound
  | template (tmpl : String) (data : Dict)
  | sendFile (full : String) (content_type : String)
deriving DecidableEq

/-- `browse(request, viewer, key=None, type='file')` (views.py lines 88-119).
The form is the externally-constructed `FileCompareForm`; `viewer.select(key)`
is called with the raw `key` argument, so the selection-dependent oracles are
applied to it, while the 404 check uses the resolved
`viewer.get_selected_file(key)`. -/
def browse (request : Request) (form : FileCompareForm) (viewer : Viewer)
    (key : Option String) (type_ : String) : Response :=
  match check_compare_form request form with
  | some url => Response.redirect url
  | none =>
    let data := setup_viewer request viewer.file
    let selKey := viewer.get_selected_file key
    let files := viewer.get_files
    if (List.lookup selKey files).isNone then Response.notFound
    else
      let data := data.set "viewer" Value.vViewerObj
      let data := data.set "poll_url"
        (Value.vStr (reverse "files.poll" [toString viewer.file.id]))
      let data := data.set "form" Value.vFormObj
      let data := data.set "status" (Value.vBool true)
      let data := data.set "files" (Value.vFiles files)
      let data := data.set "key" (Value.vStr selKey)
      let data :=
        if !viewer.is_directory key && !viewer.is_binary key then
          data.set "content" (Value.vStr (viewer.read_file key))
        else data
      let tmpl :=
        if type_ = "fragment" then "files/content.html" else "files/viewer.html"
      Response.template tmpl data

/-- The JSON body returned by `compare_poll`. -/
structure ComparePollResult where
  status : Bool
  msg : List String
deriving DecidableEq

/-- `compare_poll(request, diff)` (views.py lines 122-132): the loop over
`(diff.left, diff.right)` is unrolled, each `Message.get(delete=True)` call
threading the store, and a retrieved message is appended only when truthy. -/
def compare_poll (store : MsgStore) (diff : DiffObj) :
    ComparePollResult × MsgStore :=
  let r1 := Message.get_delete store (viewerMsgKey diff.left)
  let r2 := Message.get_delete r1.2 (viewerMsgKey diff.right)
  let msgs :=
    (if pyTruthy r1.1 then [r1.1.getD ""] else []) ++
    (if pyTruthy r2.1 then [r2.1.getD ""] else [])
  (⟨diff.is_extracted, msgs⟩, r2.2)

/-- `compare(request, diff, key=None, type='file')` (views.py lines 135-168).
`diff.select(key)` is called with the resolved key, so `is_diffable` and
`read_file` are applied to it. -/
def compare (request : Request) (form : FileCompareForm) (diff : DiffObj)
    (key : Option String) (type_ : String) : Response :=
  match check_compare_form request form with
  | some url => Response.redirect url
  | none =>
    let data := setup_viewer request diff.left.file
    let data := data.set "diff" Value.vDiffObj
    let data := data.set "poll_url"
      (Value.vStr (reverse "files.compare.poll"
        [toString diff.left.file.id, toString diff.right.file.id]))
    let data := data.set "form" Value.vFormObj
    let data := data.set "status" (Value.vBool true)
    let data := data.set "files" (Value.vFiles diff.get_files)
    let data := data.set "files_deleted" (Value.vFiles diff.get_deleted_files)
    let selKey := diff.left.get_selected_file key
    if (List.lookup selKey diff.get_files).isNone &&
        (List.lookup selKey diff.get_deleted_files).isNone then
      Response.notFound
    else
      let data := data.set "key" (Value.vStr selKey)
      let data :=
        if diff.is_diffable selKey then
          let lr := diff.read_file selKey
          (data.set "left" (Value.vStr lr.1)).set "right" (Value.vStr lr.2)
        else data
      let tmpl :=
        if type_ = "fragment" then "files/content.html" else "files/viewer.html"
      Response.template tmpl data

/-- A saved `olympia.lib.cache.Token`: its `data` payload and the generated
credential string exposed as `new.token`. -/
structure Token where
  data : Nat × String
  token : String
deriving DecidableEq

/-- `redirect(request, viewer, key)` (views.py lines 171-178).  The credential
string is generated by the cache layer, so it is passed in as `tok`; the
saved token is returned alongside the response.  `args=[viewer, key]`
stringifies the viewer, hence `viewer.name` in the URL arguments. -/
def redirect (viewer : Viewer) (key : String) (tok : String) :
    Token × Response :=
  let new : Token := ⟨(viewer.file.id, key), tok⟩
  let url := reverse "files.serve" [viewer.name, key]
  let url2 := urlparams url new.token
  (new, Response.redirect url2)

/-- `serve(request, viewer, key)` (views.py lines 181-195): a missing (hence
falsy) `files.get(key)` is a 404, otherwise the file at `obj['full']` is sent
with content type `obj['mimetype']`. -/
def serve (viewer : Viewer) (key : String) : Response :=
  let files := viewer.get_files
  match List.lookup key files with
  | none => Response.notFound
  | some obj => Response.sendFile obj.full obj.mimetype

/-- Names of the decorators composed onto `poll`, in source order (views.py
lines 65-68). -/
def poll_decorators : List String :=
  ["never_cache", "json_view", "file_view", "non_atomic_requests"]

/-- Names of the decorators composed onto `browse` (views.py lines 88-91).
The `condition(etag_func=etag, last_modified_func=last_modified)` decorator
appears in the source only as a commented-out line, so it is absent. -/
def browse_decorators : List String :=
  ["csrf_exempt", "file_view", "non_atomic_requests"]

/-- Names of the decorators composed onto `compare_poll` (views.py lines
122-125). -/
def compare_poll_decorators : List String :=
  ["never_cache", "compare_file_view", "json_view", "non_atomic_requests"]

/-- Names of the decorators composed onto `compare` (views.py lines 135-138);
as with `browse`, the `condition(...)` line is commented out. -/
def compare_decorators : List String :=
  ["csrf_exempt", "compare_file_view", "non_atomic_requests"]

/-- Names of the decorators composed onto `redirect` (views.py lines
171-172). -/
def redirect_decorators : List String :=
  ["file_view", "non_atomic_requests"]

/-- Names of the decorators composed onto `serve` (views.py lines
181-182). -/
def serve_decorators : List String :=
  ["file_view_token", "non_atomic_requests"]

/-- The facts about an API request that the `BrowseViewSet` permission
classes consult: whether each of `AllowReviewer`, `AllowReviewerUnlisted`
and `AllowAddonAuthor` (from `olympia.api.permissions`, outside the reviewed
source) would grant it; each verdict is an oracle field. -/
structure ApiRequest where
  allow_reviewer : Bool
  allow_reviewer_unlisted : Bool
  allow_addon_author : Bool
deriving DecidableEq

/-- A DRF permission class, as its verdict on a request. -/
abbrev PermissionClass := ApiRequest → Bool

/-- The `AllowReviewer` permission class, as its oracle verdict. -/
def AllowReviewer : PermissionClass := fun r => r.allow_reviewer

/-- The `AllowReviewerUnlisted` permission class, as its oracle verdict. -/
def AllowReviewerUnlisted : PermissionClass := fun r => r.allow_reviewer_unlisted

/-- The `AllowAddonAuthor` permission class, as its oracle verdict. -/
def AllowAddonAuthor : PermissionClass := fun r => r.allow_addon_author

/-- Modelled from the spec: `AnyOf(...)` (from `olympia.api.permissions`, not
in the reviewed source) grants a request iff at least one of its
sub-permissions grants it. -/
def AnyOf (perms : List PermissionClass) : PermissionClass :=
  fun r => perms.any (fun p => p r)

/-- The value assigned to `permission_classes` on views.py line 199. -/
def BrowseViewSet.permission_classes_line199 : List PermissionClass :=
  [AnyOf [AllowReviewer, AllowReviewerUnlisted, AllowAddonAuthor]]

/-- The value the `BrowseViewSet` class body leaves in `permission_classes`:
the assignment on views.py line 202 immediately rebinds the attribute to the
empty list, discarding the line-199 value. -/
def BrowseViewSet.permission_classes : List PermissionClass := []

/-- Modelled from the spec: the framework's permission check (ORM-backed
permission checks dispatched before the queryset is served) allows a request
iff every class in `permission_classes` grants it, so an empty list denies
nothing. -/
def check_permissions (classes : List PermissionClass) (r : ApiRequest) :
    Bool :=
  classes.all (fun p => p r)

/-- `BrowseViewSet.get_queryset` returns `File.objects.all()` unfiltered, so
a retrieve request reaches that queryset iff the permission check passes. -/
def BrowseViewSet.retrieve_reaches_queryset (r : ApiRequest) : Bool :=
  check_permissions BrowseViewSet.permission_classes r

/-- The template name of a rendered response, `none` for the others. -/
def Response.templateName : Response → Option String
  | Response.template t _ => some t
  | _ => none

/-- The template context of a rendered response, `[]` for the others. -/
def Response.templateData : Response → Dict
  | Response.template _ d => d
  | _ => []

/-! ### Fixtures for the witness theorems -/

/-- A concrete add-on. -/
def addonA : Addon := ⟨"slug-a", 7⟩

/-- A concrete file of `addonA`. -/
def fileA : FileObj := ⟨42, ⟨addonA⟩, true, true, "all-good"⟩

/-- A second concrete file of `addonA`. -/
def fileB : FileObj := ⟨43, ⟨addonA⟩, false, false, ""⟩

/-- A concrete file-tree entry. -/
def infoA : FileInfo := ⟨"/path/a.js", "application/javascript"⟩

/-- A concrete viewer over `fileA` holding one non-directory, non-binary
file. -/
def viewerA : Viewer :=
  ⟨"42", fileA, addonA, true, [("a.js", infoA)],
    fun k => k.getD "a.js", fun _ => false, fun _ => false,
    fun _ => "alert(1)"⟩

/-- A concrete viewer over `fileB`. -/
def viewerB : Viewer :=
  ⟨"43", fileB, addonA, true, [("a.js", infoA)],
    fun k => k.getD "a.js", fun _ => false, fun _ => false,
    fun _ => "alert(2)"⟩

/-- A concrete diff object pairing `viewerA` and `viewerB`. -/
def diffA : DiffObj :=
  ⟨viewerA, viewerB, addonA, true, [("a.js", infoA)], [],
    fun _ => true, fun _ => ("l1", "r1")⟩

/-- A concrete GET request from a user with no special rights. -/
def reqGet : Request := ⟨"GET", "/files/browse/42", false, false⟩

/-- A concrete POST request from a user with no special rights. -/
def reqPost : Request := ⟨"POST", "/files/browse/42", false, false⟩

/-- A concrete valid compare form with both sides filled in. -/
def formA : FileCompareForm := ⟨true, "42", some "43"⟩

/-! ### Dict and message-store lemmas -/

/-- Writing a key makes it readable. -/
theorem Dict.get_set_same (d : Dict) (k : String) (v : Value) :
    (d.set k v).get k = some v := by
  simp [Dict.set, Dict.get, List.lookup]

/-- Writing one key leaves the others unchanged. -/
theorem Dict.get_set_ne (d : Dict) (k k2 : String) (v : Value) (h : k2 ≠ k) :
    (d.set k v).get k2 = d.get k2 := by
  simp [Dict.set, Dict.get, List.lookup, beq_eq_false_iff_ne.mpr h]

/-- Lookup on a cons cell, phrased with a decidable key comparison. -/
theorem Dict.get_cons (k2 k : String) (v : Value) (d : Dict) :
    Dict.get ((k, v) :: d) k2 = if k2 = k then some v else d.get k2 := by
  by_cases h : k2 = k
  · subst h; simp [Dict.get, List.lookup]
  · simp [Dict.get, List.lookup, beq_eq_false_iff_ne.mpr h, h]

/-- `setup_viewer` never writes a `content` key. -/
theorem setup_viewer_get_content (request : Request) (file_obj : FileObj) :
    (setup_viewer request file_obj).get "content" = none := by
  cases h1 : request.is_reviewer <;>
    cases h2 : request.check_addon_ownership_dev <;>
      cases h3 : file_obj.has_been_validated <;>
        simp [setup_viewer, setup_viewer_base, Dict.set, Dict.get,
          List.lookup, h1, h2, h3]

/-- `setup_viewer` never writes a `left` key. -/
theorem setup_viewer_get_left (request : Request) (file_obj : FileObj) :
    (setup_viewer request file_obj).get "left" = none := by
  cases h1 : request.is_reviewer <;>
    cases h2 : request.check_addon_ownership_dev <;>
      cases h3 : file_obj.has_been_validated <;>
        simp [setup_viewer, setup_viewer_base, Dict.set, Dict.get,
          List.lookup, h1, h2, h3]

/-- `setup_viewer` never writes a `right` key. -/
theorem setup_viewer_get_right (request : Request) (file_obj : FileObj) :
    (setup_viewer request file_obj).get "right" = none := by
  cases h1 : request.is_reviewer <;>
    cases h2 : request.check_addon_ownership_dev <;>
      cases h3 : file_obj.has_been_validated <;>
        simp [setup_viewer, setup_viewer_base, Dict.set, Dict.get,
          List.lookup, h1, h2, h3]

/-- Deleting a key removes its pending message. -/
theorem MsgStore.get_delete_self (s : MsgStore) (k : String) :
    (s.delete k).get k = none := by
  induction s with
  | nil => rfl
  | cons hd tl ih =>
    by_cases hk : hd.1 = k
    · simpa [MsgStore.delete, MsgStore.get, List.filter, hk] using ih
    · simp only [MsgStore.delete, List.filter, beq_eq_false_iff_ne.mpr hk,
        Bool.not_false]
      simpa [MsgStore.delete, MsgStore.get, List.lookup,
        beq_eq_false_iff_ne.mpr (Ne.symm hk)] using ih

/-- Deleting one key leaves the other keys' messages unchanged. -/
theorem MsgStore.get_delete_ne (s : MsgStore) (k k2 : String) (h : k2 ≠ k) :
    (s.delete k).get k2 = s.get k2 := by
  induction s with
  | nil => rfl
  | cons hd tl ih =>
    by_cases hk : hd.1 = k
    · simp [MsgStore.delete, MsgStore.get, List.lookup, hk,
        beq_eq_false_iff_ne.mpr h] at *
      simpa [MsgStore.delete, MsgStore.get] using ih
    · simp only [MsgStore.delete, List.filter, beq_eq_false_iff_ne.mpr hk,
        Bool.not_false] at *
      by_cases hx : k2 = hd.1
      · simp [MsgStore.get, List.lookup, hx]
      · simp [MsgStore.get, List.lookup, beq_eq_false_iff_ne.mpr hx] at *
        simpa [MsgStore.delete, MsgStore.get] using ih

/-- A member of the truthiness-filtered singleton is the stored message. -/
theorem mem_truthy_singleton (o : Option String) (m : String)
    (h : m ∈ (if pyTruthy o then [o.getD ""] else [])) : o = some m := by
  rcases o with _ | s
  · simp [pyTruthy] at h
  · by_cases hs : s = ""
    · simp [pyTruthy, hs] at h
    · simp [pyTruthy, hs] at h
      rw [h]

/-- `reverse` always produces a non-empty URL (it starts with a slash). -/
theorem reverse_ne_empty (viewname : String) (args : List String) :
    reverse viewname args ≠ "" := by
  intro h
  have hlen := congrArg String.length h
  simp [reverse, String.length_append] at hlen
  exact absurd hlen.1.1.1 (by decide)

/-- Shape of any template response of `browse`: the template follows the
`type` argument and the `content` key is present exactly for a selection that
is neither a directory nor binary. -/
theorem browse_template_inv (request : Request) (form : FileCompareForm)
    (viewer : Viewer) (bkey : Option String) (type_ tb : String) (db : Dict)
    (hb : browse request form viewer bkey type_ = Response.template tb db) :
    tb = (if type_ = "fragment" then "files/content.html"
      else "files/viewer.html") ∧
    db.get "content" =
      (if !viewer.is_directory bkey && !viewer.is_binary bkey then
        some (Value.vStr (viewer.read_file bkey))
      else none) := by
  rcases hcc : check_compare_form request form with _ | u
  · rcases hk : List.lookup (viewer.get_selected_file bkey) viewer.get_files
      with _ | fi
    · simp [browse, hcc, hk] at hb
    · simp only [browse, hcc, hk, Option.isNone_some, Bool.false_eq_true,
        if_false, Response.template.injEq] at hb
      obtain ⟨ht, hd⟩ := hb
      subst ht
      subst hd
      refine ⟨rfl, ?_⟩
      cases hcond : (!viewer.is_directory bkey && !viewer.is_binary bkey)
      · simp only [hcond, Bool.false_eq_true, if_false]
        simp [Dict.set, Dict.get_cons, setup_viewer_get_content]
      · simp only [hcond, if_true]
        simp [Dict.get_set_same]
  · simp [browse, hcc] at hb

/-- Shape of any template response of `compare`: the template follows the
`type` argument and the `left`/`right` keys are present exactly when the diff
is diffable at the selected key. -/
theorem compare_template_inv (request : Request) (form : FileCompareForm)
    (diff : DiffObj) (ckey : Option String) (type_ tc : String) (dc : Dict)
    (hc : compare request form diff ckey type_ = Response.template tc dc) :
    tc = (if type_ = "fragment" then "files/content.html"
      else "files/viewer.html") ∧
    dc.get "left" =
      (if diff.is_diffable (diff.left.get_selected_file ckey) then
        some (Value.vStr
          (diff.read_file (diff.left.get_selected_file ckey)).1)
      else none) ∧
    dc.get "right" =
      (if diff.is_diffable (diff.left.get_selected_file ckey) then
        some (Value.vStr
          (diff.read_file (diff.left.get_selected_file ckey)).2)
      else none) := by
  rcases hcc : check_compare_form request form with _ | u
  · rcases hk1 : List.lookup (diff.left.get_selected_file ckey) diff.get_files
      with _ | fi1 <;>
      rcases hk2 : List.lookup (diff.left.get_selected_file ckey)
          diff.get_deleted_files with _ | fi2
    · simp [compare, hcc, hk1, hk2] at hc
    all_goals
      simp only [compare, hcc, hk1, hk2, Option.isNone_some, Option.isNone_none,
        Bool.false_and, Bool.and_false, Bool.false_eq_true, if_false,
        Response.template.injEq] at hc
    all_goals
      obtain ⟨ht, hd⟩ := hc
    all_goals subst ht
    all_goals subst hd
    all_goals refine ⟨rfl, ?_, ?_⟩
    all_goals
      cases hcond : diff.is_diffable (diff.left.get_selected_file ckey)
    all_goals
      simp only [hcond, Bool.false_eq_true, if_false, if_true]
    all_goals
      simp [Dict.set, Dict.get_cons, Dict.get_set_same,
        setup_viewer_get_left, setup_viewer_get_right]
  · simp [compare, hcc] at hc

/-! ### The claims -/

/-- C1: the claim that `BrowseViewSet` admits only requests satisfying one of
`AllowReviewer`, `AllowReviewerUnlisted` or `AllowAddonAuthor` fails on the
code: the class body immediately rebinds `permission_classes` to the empty
list (views.py line 202), so at the concrete request all three classes deny,
the permission check still passes and the unfiltered `File.objects.all()`
queryset is reached, while the discarded line-199 value (which the comment in
`get_queryset` describes) would have denied it. -/
theorem c1_browse_viewset_permission_bypass :
    BrowseViewSet.retrieve_reaches_queryset ⟨false, false, false⟩ = true ∧
    check_permissions BrowseViewSet.permission_classes_line199
      ⟨false, false, false⟩ = false :=
  ⟨rfl, rfl⟩

/-- C2, as stated, is false: the conditional-request decorator is not among
the decorators composed onto `browse` and `compare` — in the source the
`condition(etag_func=etag, last_modified_func=last_modified)` line is
commented out on both — so neither condition is evaluated for their
requests. -/
theorem c2_condition_decorator_absent :
    ("condition" ∈ browse_decorators ∧ "condition" ∈ compare_decorators) ↔
      False := by
  decide

/-- C2 amended: `browse` composes exactly `csrf_exempt`, `file_view` and
`non_atomic_requests`, and `compare` exactly `csrf_exempt`,
`compare_file_view` and `non_atomic_requests`; the `condition` decorator
(with `etag` and `last_modified`) is absent from both stacks, being present
only as a commented-out line. -/
theorem c2_condition_decorator_commented_out :
    browse_decorators = ["csrf_exempt", "file_view", "non_atomic_requests"] ∧
    compare_decorators =
      ["csrf_exempt", "compare_file_view", "non_atomic_requests"] ∧
    ("condition" ∈ browse_decorators) = False ∧
    ("condition" ∈ compare_decorators) = False := by
  refine ⟨rfl, rfl, ?_, ?_⟩ <;> simp [browse_decorators, compare_decorators]

/-- C3: `redirect` creates and saves a `Token` whose `data` is the pair
`(viewer.file.id, key)` and redirects to the `files.serve` URL with that
token's credential as the `token` query parameter, and `serve` is decorated
with `file_view_token`, placing file serving under token-based
authentication. -/
theorem c3_token_gated_serving (viewer : Viewer) (key tok : String) :
    (redirect viewer key tok).1 =
      Token.mk (viewer.file.id, key) tok ∧
    (redirect viewer key tok).2 =
      Response.redirect
        (urlparams (reverse "files.serve" [viewer.name, key])
          (redirect viewer key tok).1.token) ∧
    "file_view_token" ∈ serve_decorators :=
  ⟨rfl, rfl, by decide⟩

/-- C4: the JSON body of `poll` has `status = viewer.is_extracted()` and the
JSON body of `compare_poll` has `status = diff.is_extracted()`. -/
theorem c4_poll_status_fields (store : MsgStore) (viewer : Viewer)
    (diff : DiffObj) :
    (poll store viewer).1.status = viewer.is_extracted ∧
    (compare_poll store diff).1.status = diff.is_extracted :=
  ⟨rfl, rfl⟩

/-- C5: for requests the compare-form check does not intercept, `browse` 404s
exactly when the selected key is missing from `viewer.get_files()` and
`compare` exactly when it is missing from both `diff.get_files()` and
`diff.get_deleted_files()`; `serve` 404s exactly when the key is absent from
`viewer.get_files()` and otherwise sends the file at `obj['full']` with
content type `obj['mimetype']`. -/
theorem c5_unknown_key_http404 (request : Request) (form : FileCompareForm)
    (viewer : Viewer) (diff : DiffObj) (bkey ckey : Option String)
    (skey type_ : String)
    (hform : check_compare_form request form = none) :
    (browse request form viewer bkey type_ = Response.notFound ↔
      List.lookup (viewer.get_selected_file bkey) viewer.get_files = none) ∧
    (compare request form diff ckey type_ = Response.notFound ↔
      (List.lookup (diff.left.get_selected_file ckey) diff.get_files = none ∧
        List.lookup (diff.left.get_selected_file ckey)
          diff.get_deleted_files = none)) ∧
    (serve viewer skey = Response.notFound ↔
      List.lookup skey viewer.get_files = none) ∧
    (∀ obj, List.lookup skey viewer.get_files = some obj →
      serve viewer skey = Response.sendFile obj.full obj.mimetype) := by
  refine ⟨?_, ?_, ?_, ?_⟩
  · rcases hk : List.lookup (viewer.get_selected_file bkey) viewer.get_files
      with _ | fi <;> simp [browse, hform, hk]
  · rcases hk1 : List.lookup (diff.left.get_selected_file ckey)
        diff.get_files with _ | fi1 <;>
      rcases hk2 : List.lookup (diff.left.get_selected_file ckey)
          diff.get_deleted_files with _ | fi2 <;>
        simp [compare, hform, hk1, hk2]
  · rcases hk : List.lookup skey viewer.get_files with _ | fi <;>
      simp [serve, hk]
  · intro obj hobj
    simp [serve, hobj]

/-- C5 witness: at the concrete viewer, a missing key 404s while the present
key `a.js` is sent with its path and mimetype. -/
theorem c5_unknown_key_http404_witness :
    serve viewerA "nope" = Response.notFound ∧
    serve viewerA "a.js" =
      Response.sendFile "/path/a.js" "application/javascript" := by
  have h1 := c5_unknown_key_http404 reqGet formA viewerA diffA none none
    "nope" "file" rfl
  have h2 := c5_unknown_key_http404 reqGet formA viewerA diffA none none
    "a.js" "file" rfl
  exact ⟨h1.2.2.1.mpr rfl, h2.2.2.2 infoA rfl⟩

/-- C6: `check_compare_form` on a valid POST redirects to the
`files.compare` URL for `(left, right)` when a right file is given and to the
`files.list` URL for `left` otherwise; on an invalid POST it redirects to the
request's path; on every non-POST request it returns `None`. -/
theorem c6_check_compare_form_urls (request : Request)
    (form : FileCompareForm) :
    (request.method = "POST" → form.is_valid = true →
      pyTruthy form.right = true →
      check_compare_form request form =
        some (reverse "files.compare" [form.left, form.right.getD ""])) ∧
    (request.method = "POST" → form.is_valid = true →
      pyTruthy form.right = false →
      check_compare_form request form =
        some (reverse "files.list" [form.left])) ∧
    (request.method = "POST" → form.is_valid = false →
      check_compare_form request form = some request.path) ∧
    (request.method ≠ "POST" → check_compare_form request form = none) := by
  refine ⟨fun h1 h2 h3 => ?_, fun h1 h2 h3 => ?_, fun h1 h2 => ?_,
    fun h1 => ?_⟩ <;>
    simp [check_compare_form, *]

/-- C6 witness: the concrete valid POST with both sides redirects to the
compare URL, and the concrete GET request gets `None`. -/
theorem c6_check_compare_form_urls_witness :
    check_compare_form reqPost formA =
      some (reverse "files.compare" ["42", "43"]) ∧
    check_compare_form reqGet formA = none :=
  ⟨(c6_check_compare_form_urls reqPost formA).1 rfl rfl rfl,
    (c6_check_compare_form_urls reqGet formA).2.2.2 (by decide)⟩

/-- C7: in every template rendered by `browse` the `content` key is present —
holding `viewer.read_file()` — exactly when the selection is neither a
directory nor binary, and in every template rendered by `compare` the `left`
and `right` keys are present — holding the components of `diff.read_file()` —
exactly when `diff.is_diffable()` holds. -/
theorem c7_content_inclusion (request : Request) (form : FileCompareForm)
    (viewer : Viewer) (diff : DiffObj) (bkey ckey : Option String)
    (type_ tb tc : String) (db dc : Dict)
    (hb : browse request form viewer bkey type_ = Response.template tb db)
    (hc : compare request form diff ckey type_ = Response.template tc dc) :
    db.get "content" =
      (if !viewer.is_directory bkey && !viewer.is_binary bkey then
        some (Value.vStr (viewer.read_file bkey))
      else none) ∧
    dc.get "left" =
      (if diff.is_diffable (diff.left.get_selected_file ckey) then
        some (Value.vStr
          (diff.read_file (diff.left.get_selected_file ckey)).1)
      else none) ∧
    dc.get "right" =
      (if diff.is_diffable (diff.left.get_selected_file ckey) then
        some (Value.vStr
          (diff.read_file (diff.left.get_selected_file ckey)).2)
      else none) :=
  ⟨(browse_template_inv request form viewer bkey type_ tb db hb).2,
    (compare_template_inv request form diff ckey type_ tc dc hc).2.1,
    (compare_template_inv request form diff ckey type_ tc dc hc).2.2⟩

/-- C7 witness: at the concrete viewer (not a directory, not binary) the
rendered context holds the file's text, and at the concrete diffable diff it
holds both sides of the diff. -/
theorem c7_content_inclusion_witness :
    Dict.get (Response.templateData (browse reqGet formA viewerA none "file"))
      "content" = some (Value.vStr "alert(1)") ∧
    Dict.get (Response.templateData (compare reqGet formA diffA none "file"))
      "left" = some (Value.vStr "l1") ∧
    Dict.get (Response.templateData (compare reqGet formA diffA none "file"))
      "right" = some (Value.vStr "r1") := by
  have h := c7_content_inclusion reqGet formA viewerA diffA none none "file"
    "files/viewer.html" "files/viewer.html"
    (Response.templateData (browse reqGet formA viewerA none "file"))
    (Response.templateData (compare reqGet formA diffA none "file"))
    rfl rfl
  exact ⟨h.1.trans rfl, h.2.1.trans rfl, h.2.2.trans rfl⟩

/-- C8: every template `browse` or `compare` renders is
`files/content.html` when the `type` argument is `fragment` and
`files/viewer.html` for every other value, while `poll` and `compare_poll`
are composed with `json_view` and so return JSON. -/
theorem c8_template_or_json (request : Request) (form : FileCompareForm)
    (viewer : Viewer) (diff : DiffObj) (bkey ckey : Option String)
    (type_ tb tc : String) (db dc : Dict)
    (hb : browse request form viewer bkey type_ = Response.template tb db)
    (hc : compare request form diff ckey type_ = Response.template tc dc) :
    tb = (if type_ = "fragment" then "files/content.html"
      else "files/viewer.html") ∧
    tc = (if type_ = "fragment" then "files/content.html"
      else "files/viewer.html") ∧
    "json_view" ∈ poll_decorators ∧
    "json_view" ∈ compare_poll_decorators :=
  ⟨(browse_template_inv request form viewer bkey type_ tb db hb).1,
    (compare_template_inv request form diff ckey type_ tc dc hc).1,
    by decide, by decide⟩

/-- C8 witness: with `type='fragment'` the concrete browse and compare
requests render `files/content.html`, and `json_view` is on both polling
stacks. -/
theorem c8_template_or_json_witness :
    Response.templateName (browse reqGet formA viewerA none "fragment") =
      some "files/content.html" ∧
    Response.templateName (compare reqGet formA diffA none "fragment") =
      some "files/content.html" ∧
    "json_view" ∈ poll_decorators ∧
    "json_view" ∈ compare_poll_decorators := by
  have h := c8_template_or_json reqGet formA viewerA diffA none none
    "fragment" "files/content.html" "files/content.html"
    (Response.templateData (browse reqGet formA viewerA none "fragment"))
    (Response.templateData (compare reqGet formA diffA none "fragment"))
    rfl rfl
  exact ⟨rfl, rfl, h.2.2.1, h.2.2.2⟩

/-- C9: `poll` returns `msg` as a one-element list holding the pending
message or `None`, and deletes the message on retrieval; `compare_poll`
returns in `msg` only real pending messages of `diff.left` or `diff.right`
(never `None`), at most two of them, and the empty list when neither side has
a pending message. -/
theorem c9_poll_message_shapes (store : MsgStore) (viewer : Viewer)
    (diff : DiffObj) :
    (poll store viewer).1.msg = [store.get (viewerMsgKey viewer)] ∧
    ((poll store viewer).2).get (viewerMsgKey viewer) = none ∧
    (∀ m ∈ (compare_poll store diff).1.msg,
      store.get (viewerMsgKey diff.left) = some m ∨
      store.get (viewerMsgKey diff.right) = some m) ∧
    (compare_poll store diff).1.msg.length ≤ 2 ∧
    (store.get (viewerMsgKey diff.left) = none →
      store.get (viewerMsgKey diff.right) = none →
      (compare_poll store diff).1.msg = []) := by
  refine ⟨rfl, MsgStore.get_delete_self store (viewerMsgKey viewer),
    ?_, ?_, ?_⟩
  · intro m hm
    simp only [compare_poll, Message.get_delete] at hm
    rcases List.mem_append.mp hm with h | h
    · exact Or.inl (mem_truthy_singleton _ m h)
    · by_cases hkk : viewerMsgKey diff.right = viewerMsgKey diff.left
      · rw [hkk, MsgStore.get_delete_self] at h
        simp [pyTruthy] at h
      · rw [MsgStore.get_delete_ne store _ _ hkk] at h
        exact Or.inr (mem_truthy_singleton _ m h)
  · simp only [compare_poll, Message.get_delete]
    by_cases h1 : pyTruthy (store.get (viewerMsgKey diff.left)) <;>
      by_cases h2 : pyTruthy
          ((store.delete (viewerMsgKey diff.left)).get
            (viewerMsgKey diff.right)) <;>
        simp [h1, h2]
  · intro hl hr
    simp only [compare_poll, Message.get_delete]
    have h2 : (store.delete (viewerMsgKey diff.left)).get
        (viewerMsgKey diff.right) = none := by
      by_cases hkk : viewerMsgKey diff.right = viewerMsgKey diff.left
      · rw [hkk]; exact MsgStore.get_delete_self store _
      · rw [MsgStore.get_delete_ne store _ _ hkk]; exact hr
    simp [hl, h2, pyTruthy]

/-- C10: `setup_viewer` starts from a dict with `status` `False`, `selected`
`{}` and `validate_url` `''`; it sets `validate_url` to the (non-empty)
validation URL and adds `automated_signing` exactly when the requester is a
reviewer or passes the dev ownership check, additionally adding
`validation_data` when the file has been validated; `file_link` is the
`Back to review` link to `reviewers.review` for reviewers and the
`Back to add-on` link to `addons.detail` for everyone else. -/
theorem c10_setup_viewer_fields (request : Request) (file_obj : FileObj) :
    Dict.get (setup_viewer_base file_obj) "status" =
      some (Value.vBool false) ∧
    Dict.get (setup_viewer_base file_obj) "selected" =
      some Value.vEmptyDict ∧
    Dict.get (setup_viewer_base file_obj) "validate_url" =
      some (Value.vStr "") ∧
    Dict.get (setup_viewer request file_obj) "validate_url" =
      some (Value.vStr
        (if request.is_reviewer || request.check_addon_ownership_dev then
          reverse "devhub.json_file_validation"
            [file_obj.version.addon.slug, toString file_obj.id]
        else "")) ∧
    reverse "devhub.json_file_validation"
      [file_obj.version.addon.slug, toString file_obj.id] ≠ "" ∧
    Dict.get (setup_viewer request file_obj) "automated_signing" =
      (if request.is_reviewer || request.check_addon_ownership_dev then
        some (Value.vBool file_obj.automated_signing)
      else none) ∧
    Dict.get (setup_viewer request file_obj) "validation_data" =
      (if (request.is_reviewer || request.check_addon_ownership_dev) &&
          file_obj.has_been_validated then
        some (Value.vStr file_obj.processed_validation)
      else none) ∧
    Dict.get (setup_viewer request file_obj) "file_link" =
      some (if request.is_reviewer then
        Value.vLink (ugettext "Back to review")
          (reverse "reviewers.review" [file_obj.version.addon.slug])
      else
        Value.vLink (ugettext "Back to add-on")
          (reverse "addons.detail" [toString file_obj.version.addon.pk])) := by
  refine ⟨rfl, rfl, rfl, ?_, reverse_ne_empty _ _, ?_, ?_, ?_⟩ <;>
    cases h1 : request.is_reviewer <;>
      cases h2 : request.check_addon_ownership_dev <;>
        cases h3 : file_obj.has_been_validated <;>
          simp [setup_viewer, setup_viewer_base, Dict.set, Dict.get,
            List.lookup, h1, h2, h3]

end Olympia
